import Mathlib

/-!
Shallow embedding of the FoxServer facade (src/unnamed/part_000).

The facade wraps an express application, an http server and a shared
log4js logger.  Middleware registration is modelled by a list of
descriptors recording, for each `app.use(...)` call, which middleware
factory was invoked with which (resolved) arguments and under which
mount path.  The shared log4js registry is modelled as a function from
category names to logger states, threaded explicitly; a logger
reference is its category name, since log4js hands out one shared
logger per category.  Third-party callback values (the method-override
getter function, the cookie decode function) are modelled as opaque
numeric identifiers, since the wrapper forwards them verbatim and
never inspects them.
-/

/-- Source: `export const FOX_SERVER_DEFAULT_PORT = 8081`. -/
def FOX_SERVER_DEFAULT_PORT : Nat := 8081

/-- Source: `interface FoxServerProps { host?: string; port?: number }`. -/
structure FoxServerProps where
  host : Option String := none
  port : Option Nat := none
deriving Repr, DecidableEq

/-- Node `AddressInfo`: `{ address: string; family: string; port: number }`. -/
structure AddressInfo where
  address : String
  family : String
  port : Nat
deriving Repr, DecidableEq

/-- The result of `http.Server.address()`: `AddressInfo | string | null`. -/
inductive ServerAddress
  | null
  | str (s : String)
  | info (a : AddressInfo)
deriving Repr, DecidableEq

/-- The http server object.  The only observable the wrapper reads from
it is its bound address (null before `listen` succeeds). -/
structure HttpServer where
  address : ServerAddress
deriving Repr, DecidableEq

/-- `express-fileupload` size limits: `{ fileSize?: number }`. -/
structure FileSizeLimits where
  fileSize : Option Nat := none
deriving Repr, DecidableEq

/-- `fileUpload.Options` (the fields the wrapper touches). -/
structure FileUploadOptions where
  limits : Option FileSizeLimits := none
  useTempFiles : Option Bool := none
deriving Repr, DecidableEq

/-- `CorsOptions`, forwarded verbatim by the wrapper. -/
structure CorsOptions where
  origin : Option String := none
  credentials : Option Bool := none
deriving Repr, DecidableEq

/-- `cookieParser.CookieParseOptions`; the decode callback is an opaque
identifier. -/
structure CookieParseOptions where
  decode : Option Nat := none
deriving Repr, DecidableEq

/-- `body-parser` `OptionsUrlencoded` (the fields the wrapper touches). -/
structure OptionsUrlencoded where
  extended : Option Bool := none
  limit : Option String := none
deriving Repr, DecidableEq

/-- `body-parser` `OptionsJson`, forwarded verbatim. -/
structure OptionsJson where
  limit : Option String := none
  strict : Option Bool := none
deriving Repr, DecidableEq

/-- `method-override` options, forwarded verbatim. -/
structure MethodOverrideOptions where
  methods : Option (List String) := none
deriving Repr, DecidableEq

/-- `express-session` `SessionOptions` (the fields the wrapper touches). -/
structure SessionOptions where
  secret : String
  resave : Option Bool := none
  saveUninitialized : Option Bool := none
  name : Option String := none
deriving Repr, DecidableEq

/-- The method-override getter: `string | ((req, res) => string)`;
a custom function is an opaque identifier. -/
abbrev OverrideGetter := Sum String Nat

/-- A middleware descriptor: which factory was invoked by `app.use`,
with which already-resolved arguments. -/
inductive Middleware
  | fileUpload (options : FileUploadOptions)
  | cors (options : Option CorsOptions)
  | cookieParser (secret : Option (Sum String (List String)))
      (options : Option CookieParseOptions)
  | bodyParserUrlencoded (options : OptionsUrlencoded)
  | bodyParserJson (options : Option OptionsJson)
  | methodOverride (getter : Option OverrideGetter)
      (options : Option MethodOverrideOptions)
  | session (options : SessionOptions)
  | expressStatic (path : String)
deriving Repr, DecidableEq

/-- One entry of the request pipeline: `app.use(mw)` mounts at the root
(`mountPath = none`); `app.use(url, mw)` mounts under `url`. -/
structure MwEntry where
  mountPath : Option String
  mw : Middleware
deriving Repr, DecidableEq

/-- The express application: the ordered middleware pipeline plus the
`app.set` settings table. -/
structure ExpressApp where
  middlewares : List MwEntry
  settings : List (String × String)
deriving Repr, DecidableEq

/-- `express()` produces a fresh application with an empty pipeline. -/
def ExpressApp.empty : ExpressApp := { middlewares := [], settings := [] }

/-- `app.use(...)` appends one entry to the pipeline, after all entries
registered before it. -/
def ExpressApp.use (app : ExpressApp) (e : MwEntry) : ExpressApp :=
  { app with middlewares := app.middlewares ++ [e] }

/-- `app.set(k, v)` stores the value for the key, replacing a previous
binding. -/
def ExpressApp.set (app : ExpressApp) (k v : String) : ExpressApp :=
  { app with settings := (app.settings.filter (fun p => p.1 ≠ k)) ++ [(k, v)] }

/-- The mutable state of one log4js logger. -/
structure LoggerState where
  level : Option String := none
deriving Repr, DecidableEq

/-- The module-wide log4js registry: one shared logger state per
category name. -/
abbrev Log4jsState := String → LoggerState

/-- `getLogger(name)` (module-level, from log4js) returns the shared
logger of that category; its identity is the category name. -/
def log4jsGetLogger (name : String) : String := name

/-- The facade: `class FoxServer`.  `app`, `server`, `host`, `port` are
the fields of the class; `logger` is the reference obtained from
`getLogger('server')`. -/
structure FoxServer where
  app : ExpressApp
  server : HttpServer
  logger : String
  host : Option String
  port : Nat
deriving Repr, DecidableEq

/-- The constructor: creates a fresh express app and http server,
captures `props.host`, defaults the port to `FOX_SERVER_DEFAULT_PORT`,
and sets `this.logger.level = 'debug'` on the shared logger, mutating
the module-wide registry. -/
def FoxServer.construct (props : FoxServerProps) (g : Log4jsState) :
    FoxServer × Log4jsState :=
  let logger := log4jsGetLogger "server"
  let s : FoxServer :=
    { app := ExpressApp.empty
      server := { address := ServerAddress.null }
      logger := logger
      host := props.host
      port := props.port.getD FOX_SERVER_DEFAULT_PORT }
  (s, fun n => if n = logger then { g n with level := some "debug" } else g n)

/-- `getExpressApp()`. -/
def FoxServer.getExpressApp (s : FoxServer) : ExpressApp := s.app

/-- `getHttpServer()`. -/
def FoxServer.getHttpServer (s : FoxServer) : HttpServer := s.server

/-- `getLogger()`. -/
def FoxServer.getLogger (s : FoxServer) : String := s.logger

/-- `getPort()`: the bound socket port when the server address is a
non-string value, otherwise the configured port. -/
def FoxServer.getPort (s : FoxServer) : Nat :=
  match s.getHttpServer.address with
  | ServerAddress.info a => a.port
  | _ => s.port

/-- `getHost()`: the bound socket address (mapping the literal `'::'`
to `'localhost'`) when the server address is a non-string value,
otherwise the configured host. -/
def FoxServer.getHost (s : FoxServer) : Option String :=
  match s.getHttpServer.address with
  | ServerAddress.info a =>
      if a.address = "::" then some "localhost" else some a.address
  | _ => s.host

/-- `useFilesUpload(options?)`: registers `fileUpload(options ?? {
limits: { fileSize: 50 * 1024 * 1024 } })`. -/
def FoxServer.useFilesUpload (s : FoxServer)
    (options : Option FileUploadOptions) : FoxServer :=
  { s with
    app := s.app.use
      (⟨none, Middleware.fileUpload
        (options.getD { limits := some { fileSize := some (50 * 1024 * 1024) } })⟩) }

/-- `useCors(options?)`: registers `cors(options)`. -/
def FoxServer.useCors (s : FoxServer) (options : Option CorsOptions) :
    FoxServer :=
  { s with app := s.app.use ⟨none, Middleware.cors options⟩ }

/-- `useCookieParser(secret?, options?)`: registers
`cookieParser(secret, options)`. -/
def FoxServer.useCookieParser (s : FoxServer)
    (secret : Option (Sum String (List String)))
    (options : Option CookieParseOptions) : FoxServer :=
  { s with app := s.app.use ⟨none, Middleware.cookieParser secret options⟩ }

/-- `useBodyParserURLEncode(options?)`: registers
`bodyParser.urlencoded(options ?? { extended: true })`. -/
def FoxServer.useBodyParserURLEncode (s : FoxServer)
    (options : Option OptionsUrlencoded) : FoxServer :=
  { s with
    app := s.app.use
      (⟨none, Middleware.bodyParserUrlencoded (options.getD { extended := some true })⟩) }

/-- `useBodyParserJSON(options?)`: registers `bodyParser.json(options)`. -/
def FoxServer.useBodyParserJSON (s : FoxServer)
    (options : Option OptionsJson) : FoxServer :=
  { s with app := s.app.use ⟨none, Middleware.bodyParserJson options⟩ }

/-- `useRenderEngine(engine, path)`: `app.set('views', path);
app.set('view engine', engine)`. -/
def FoxServer.useRenderEngine (s : FoxServer) (engine path : String) :
    FoxServer :=
  { s with app := (s.app.set "views" path).set "view engine" engine }

/-- `useMethodOverride(getter?, options?)`: registers
`methodOverride(getter, options)`. -/
def FoxServer.useMethodOverride (s : FoxServer)
    (getter : Option OverrideGetter)
    (options : Option MethodOverrideOptions) : FoxServer :=
  { s with app := s.app.use ⟨none, Middleware.methodOverride getter options⟩ }

/-- `useSession(options)`: when the argument is a string, registers
`session({ secret: options, resave: true, saveUninitialized: true })`;
otherwise forwards the record verbatim. -/
def FoxServer.useSession (s : FoxServer)
    (options : Sum SessionOptions String) : FoxServer :=
  { s with
    app := s.app.use
      (⟨none, Middleware.session
        (match options with
         | Sum.inr secret =>
             { secret := secret
               resave := some true
               saveUninitialized := some true }
         | Sum.inl o => o)⟩) }

/-- `useStatic(url, path)`: registers `express.static(path)` mounted
under `url`. -/
def FoxServer.useStatic (s : FoxServer) (url path : String) : FoxServer :=
  { s with app := s.app.use ⟨some url, Middleware.expressStatic path⟩ }

/-- The outcome of `server.listen({port, host}, cb)`: either the socket
binds (the callback fires with the kernel-assigned address installed)
or binding fails (the callback never fires; the failure is emitted on
the server's own error channel). -/
inductive ListenOutcome
  | bound (a : AddressInfo)
  | failed (err : String)
deriving Repr, DecidableEq

/-- The settled state of a promise. -/
inductive Settled (α : Type)
  | resolved (a : α)
  | rejected (err : String)
deriving Repr, DecidableEq

/-- `start()`: binds the listener and returns a promise whose executor
receives only `resolve`, called with `this` from the listen callback.
The result is the facade after the call together with the settled
state of the returned promise (`none` = still pending: on a bind
failure no callback fires and nothing settles the promise). -/
def FoxServer.start (s : FoxServer) (o : ListenOutcome) :
    FoxServer × Option (Settled FoxServer) :=
  match o with
  | ListenOutcome.bound a =>
      let s' : FoxServer :=
        { s with server := { s.server with address := ServerAddress.info a } }
      (s', some (Settled.resolved s'))
  | ListenOutcome.failed _ => (s, none)

/-- One call to a "use" method of the facade, with its arguments. -/
inductive UseCall
  | filesUpload (options : Option FileUploadOptions)
  | cors (options : Option CorsOptions)
  | cookieParser (secret : Option (Sum String (List String)))
      (options : Option CookieParseOptions)
  | bodyParserURLEncode (options : Option OptionsUrlencoded)
  | bodyParserJSON (options : Option OptionsJson)
  | methodOverride (getter : Option OverrideGetter)
      (options : Option MethodOverrideOptions)
  | session (options : Sum SessionOptions String)
  | useStatic (url : String) (path : String)
deriving Repr, DecidableEq

/-- Dispatch one "use" call to the corresponding facade method. -/
def applyUse (s : FoxServer) : UseCall → FoxServer
  | UseCall.filesUpload options => s.useFilesUpload options
  | UseCall.cors options => s.useCors options
  | UseCall.cookieParser secret options => s.useCookieParser secret options
  | UseCall.bodyParserURLEncode options => s.useBodyParserURLEncode options
  | UseCall.bodyParserJSON options => s.useBodyParserJSON options
  | UseCall.methodOverride getter options => s.useMethodOverride getter options
  | UseCall.session options => s.useSession options
  | UseCall.useStatic url path => s.useStatic url path

/-- The single pipeline entry a "use" call registers. -/
def UseCall.entry : UseCall → MwEntry
  | UseCall.filesUpload options =>
      ⟨none, Middleware.fileUpload
        (options.getD { limits := some { fileSize := some (50 * 1024 * 1024) } })⟩
  | UseCall.cors options => ⟨none, Middleware.cors options⟩
  | UseCall.cookieParser secret options =>
      ⟨none, Middleware.cookieParser secret options⟩
  | UseCall.bodyParserURLEncode options =>
      ⟨none, Middleware.bodyParserUrlencoded (options.getD { extended := some true })⟩
  | UseCall.bodyParserJSON options => ⟨none, Middleware.bodyParserJson options⟩
  | UseCall.methodOverride getter options =>
      ⟨none, Middleware.methodOverride getter options⟩
  | UseCall.session options =>
      ⟨none, Middleware.session
        (match options with
         | Sum.inr secret =>
             { secret := secret
               resave := some true
               saveUninitialized := some true }
         | Sum.inl o => o)⟩
  | UseCall.useStatic url path => ⟨some url, Middleware.expressStatic path⟩

/-- One configuration call: the eight "use" methods plus
`useRenderEngine`. -/
inductive ConfigCall
  | use (c : UseCall)
  | renderEngine (engine path : String)
deriving Repr, DecidableEq

/-- Dispatch one configuration call. -/
def applyConfig (s : FoxServer) : ConfigCall → FoxServer
  | ConfigCall.use c => applyUse s c
  | ConfigCall.renderEngine engine path => s.useRenderEngine engine path

/-- A reference into the object heap. -/
abbrev Ref := Nat

/-- The object heap: facade objects addressed by reference. -/
abbrev Heap := Ref → FoxServer

/-- One configuration method call on the object graph: the body mutates
the fields of the receiver in place and ends with `return this`, so
the method hands back the receiver reference itself. -/
def callConfig (h : Heap) (r : Ref) (c : ConfigCall) : Heap × Ref :=
  ((fun r' => if r' = r then applyConfig (h r) c else h r'), r)

/-- An empty log4js registry: no logger has a level configured yet. -/
def emptyLog4js : Log4jsState := fun _ => { level := none }

/-- A sample facade constructed with no props against the empty
registry. -/
def sampleServer : FoxServer := (FoxServer.construct {} emptyLog4js).1

/-! Helper lemmas shared by the claim theorems. -/

theorem applyUse_eq_use_entry (s : FoxServer) (c : UseCall) :
    applyUse s c = { s with app := s.app.use c.entry } := by
  cases c <;> rfl

theorem foldl_applyUse_middlewares (s : FoxServer) (cs : List UseCall) :
    (cs.foldl applyUse s).app.middlewares =
      s.app.middlewares ++ cs.map UseCall.entry := by
  induction cs generalizing s with
  | nil => simp
  | cons c cs ih =>
      rw [List.foldl_cons, List.map_cons, ih, applyUse_eq_use_entry]
      simp [ExpressApp.use]

/-- Claim C1: `start()` returns a promise that, once the listener is
bound, resolves with the facade instance itself; the promise has no
rejection path, and when binding fails the promise is never settled at
all (the failure travels on the listener's own error channel). -/
theorem start_promise_resolves_with_facade (s : FoxServer) (o : ListenOutcome) :
    (∀ e, (s.start o).2 ≠ some (Settled.rejected e)) ∧
    (∀ a, o = ListenOutcome.bound a →
        (s.start o).2 = some (Settled.resolved (s.start o).1)) ∧
    (∀ e, o = ListenOutcome.failed e → (s.start o).2 = none) := by
  cases o <;> simp [FoxServer.start]

/-- Witness for claim C1 at a concrete facade and bind outcome. -/
theorem start_promise_resolves_with_facade_witness :
    (sampleServer.start (ListenOutcome.bound ⟨"::", "IPv6", 8081⟩)).2 =
      some (Settled.resolved
        ((sampleServer.start (ListenOutcome.bound ⟨"::", "IPv6", 8081⟩)).1)) :=
  (start_promise_resolves_with_facade sampleServer
      (ListenOutcome.bound ⟨"::", "IPv6", 8081⟩)).2.1 ⟨"::", "IPv6", 8081⟩ rfl

/-- Claim C2: every sequence of "use" calls appends exactly one
pipeline entry per call, and the pipeline holds the entries in call
order. -/
theorem use_calls_register_one_each_in_order (s : FoxServer) (cs : List UseCall) :
    (cs.foldl applyUse s).app.middlewares =
      s.app.middlewares ++ cs.map UseCall.entry ∧
    (cs.foldl applyUse s).app.middlewares.length =
      s.app.middlewares.length + cs.length := by
  refine ⟨foldl_applyUse_middlewares s cs, ?_⟩
  rw [foldl_applyUse_middlewares s cs]
  simp

/-- Claim C3: a facade constructed without an explicit port reports the
default constant port 8081 from `getPort()` before `start()`. -/
theorem getPort_default_before_start (props : FoxServerProps) (g : Log4jsState)
    (h : props.port = none) :
    ((FoxServer.construct props g).1).getPort = FOX_SERVER_DEFAULT_PORT ∧
    FOX_SERVER_DEFAULT_PORT = 8081 := by
  constructor
  · simp [FoxServer.construct, FoxServer.getPort, FoxServer.getHttpServer, h]
  · rfl

/-- Witness for claim C3 at concrete props with no port. -/
theorem getPort_default_before_start_witness :
    ((FoxServer.construct {} emptyLog4js).1).getPort = FOX_SERVER_DEFAULT_PORT :=
  (getPort_default_before_start {} emptyLog4js rfl).1

/-- Claim C4: once the listener is bound, `getPort()` returns the port
of the live socket's bound address, whatever port was configured — in
particular the kernel-assigned port when port 0 was requested. -/
theorem getPort_after_bind_is_socket_port (s : FoxServer) (a : AddressInfo) :
    ((s.start (ListenOutcome.bound a)).1).getPort = a.port := by
  simp [FoxServer.start, FoxServer.getPort, FoxServer.getHttpServer]

/-- Following the spec's words for claim C5: a wildcard
(any-interface) address literal, in its IPv6 and IPv4 forms. -/
def isWildcardAddress (a : String) : Bool :=
  a = "::" || a = "0.0.0.0"

/-- Claim C5, counterexample: a facade bound to the IPv4 wildcard
literal reports that literal from `getHost()`, not the loopback name,
because the source maps only the IPv6 literal to 'localhost'. -/
theorem getHost_wildcard_counterexample :
    isWildcardAddress "0.0.0.0" = true ∧
    ((sampleServer.start
        (ListenOutcome.bound ⟨"0.0.0.0", "IPv4", 8081⟩)).1).getHost =
      some "0.0.0.0" ∧
    some "0.0.0.0" ≠ some "localhost" := by
  refine ⟨rfl, rfl, by decide⟩

/-- Claim C5 (amended): a facade whose listener is bound to the IPv6
wildcard literal reports the loopback name from `getHost()`; other
bound addresses, the IPv4 wildcard included, are reported verbatim. -/
theorem getHost_ipv6_wildcard_localhost (s : FoxServer) (a : AddressInfo)
    (h : a.address = "::") :
    ((s.start (ListenOutcome.bound a)).1).getHost = some "localhost" := by
  simp [FoxServer.start, FoxServer.getHost, FoxServer.getHttpServer, h]

/-- Witness for the amended claim C5 at a concrete bound address. -/
theorem getHost_ipv6_wildcard_localhost_witness :
    ((sampleServer.start
        (ListenOutcome.bound ⟨"::", "IPv6", 8082⟩)).1).getHost =
      some "localhost" :=
  getHost_ipv6_wildcard_localhost sampleServer ⟨"::", "IPv6", 8082⟩ rfl

/-- Claim C6: `useSession` called with a bare secret string registers
exactly what `useSession` called with `{secret, resave: true,
saveUninitialized: true}` registers. -/
theorem useSession_string_form_equivalent (s : FoxServer) (secret : String) :
    s.useSession (Sum.inr secret) =
      s.useSession (Sum.inl
        { secret := secret
          resave := some true
          saveUninitialized := some true }) := rfl

/-- Claim C7: every configuration method ("use" methods and
`useRenderEngine`) hands back the very reference it was invoked on,
so calls chain in any order. -/
theorem config_call_returns_receiver (h : Heap) (r : Ref) (c : ConfigCall) :
    (callConfig h r c).2 = r ∧
    (callConfig h r c).1 r = applyConfig (h r) c := by
  refine ⟨rfl, ?_⟩
  simp [callConfig]

/-- Claim C8: `useBodyParserURLEncode` with no options registers
URL-encoded parsing with `{extended: true}`; with options they are
forwarded verbatim. -/
theorem useBodyParserURLEncode_default_extended (s : FoxServer) :
    (s.useBodyParserURLEncode none).app.middlewares =
      s.app.middlewares ++
        [⟨none, Middleware.bodyParserUrlencoded { extended := some true }⟩] ∧
    ∀ o, (s.useBodyParserURLEncode (some o)).app.middlewares =
      s.app.middlewares ++ [⟨none, Middleware.bodyParserUrlencoded o⟩] := by
  constructor
  · rfl
  · intro o
    rfl

/-- Claim C9: a sequence of "use" calls leaves the configured host and
port, the http server and the logger reference untouched; only the
pipeline grows. -/
theorem use_calls_preserve_frame (s : FoxServer) (cs : List UseCall) :
    (cs.foldl applyUse s).host = s.host ∧
    (cs.foldl applyUse s).port = s.port ∧
    (cs.foldl applyUse s).server = s.server ∧
    (cs.foldl applyUse s).logger = s.logger := by
  induction cs generalizing s with
  | nil => exact ⟨rfl, rfl, rfl, rfl⟩
  | cons c cs ih =>
      rw [List.foldl_cons, applyUse_eq_use_entry]
      exact ih { s with app := s.app.use c.entry }

/-- Claim C10: construction sets the level of the shared module-wide
logger of category 'server' to 'debug', and `getLogger()` on any
facade returns that one shared logger. -/
theorem construct_shares_server_logger (props props' : FoxServerProps)
    (g g' : Log4jsState) :
    ((FoxServer.construct props g).2) "server" =
      { g "server" with level := some "debug" } ∧
    ((FoxServer.construct props g).1).getLogger = log4jsGetLogger "server" ∧
    ((FoxServer.construct props g).1).getLogger =
      ((FoxServer.construct props' g').1).getLogger := by
  refine ⟨?_, rfl, rfl⟩
  simp [FoxServer.construct, log4jsGetLogger]
